import Mathlib

/-!
Shallow embedding of the Taskly CLI (`src/cli.js`), a small task manager
persisting a JSON array of task records to a single file.  Pure data and
the command handlers (`add`, `list`, `complete`, `remove`) are modelled as
Lean functions; the persisted file is modelled as a `FileData` value and
each handler returns the resulting store, its exit code and whether it
wrote the store ( `saveTasks` calls ).
-/

namespace Taskly

/-- A task record, exactly the fields `commands.add` creates plus the
optional `completedAt` that `commands.complete` adds later. -/
structure Task where
  id : String
  title : String
  priority : String
  completed : Bool
  created : String
  completedAt : Option String
deriving Repr, DecidableEq

/-- JS `s.startsWith(p)`, modelled structurally on the character lists. -/
def strStartsWith (s p : String) : Bool :=
  p.data.isPrefixOf s.data

/-- JS `String.prototype.split` with a one-character separator, on char
lists: `"a=b=".split('=') = ["a","b",""]`. -/
def splitOnCharList (c : Char) : List Char → List (List Char)
  | [] => [[]]
  | x :: rest =>
    let r := splitOnCharList c rest
    if x = c then [] :: r
    else
      match r with
      | [] => [[x]]
      | h :: t => (x :: h) :: t

/-- JS `s.split('=')`. -/
def splitEq (s : String) : List String :=
  (splitOnCharList '=' s.data).map (fun cs => String.mk cs)

/-- Decimal digits at the front of a character list, as a number; `none`
when there is no leading digit (JS `parseInt` returns `NaN` then). -/
def parseDecDigits (cs : List Char) : Option Nat :=
  let ds := cs.takeWhile Char.isDigit
  if ds = [] then none
  else some (ds.foldl (fun acc c => acc * 10 + (c.toNat - 48)) 0)

/-- Value of a hexadecimal digit character, if it is one. -/
def hexVal (c : Char) : Option Nat :=
  if c.isDigit then some (c.toNat - 48)
  else if 'a' ≤ c ∧ c ≤ 'f' then some (c.toNat - 97 + 10)
  else if 'A' ≤ c ∧ c ≤ 'F' then some (c.toNat - 65 + 10)
  else none

/-- Hexadecimal digits at the front of a character list. -/
def parseHexDigits (cs : List Char) : Option Nat :=
  let ds := cs.takeWhile (fun c => (hexVal c).isSome)
  if ds = [] then none
  else some (ds.foldl (fun acc c => acc * 16 + ((hexVal c).getD 0)) 0)

/-- JS `parseInt(s)` with no radix argument: skip leading whitespace, an
optional sign, then either a `0x`/`0X` hexadecimal literal or the longest
run of decimal digits; `none` models `NaN`. -/
def parseIntJS (s : String) : Option Int :=
  let cs := s.data.dropWhile Char.isWhitespace
  let sgn : Int := match cs with
    | '-' :: _ => -1
    | _ => 1
  let cs2 : List Char := match cs with
    | '-' :: r => r
    | '+' :: r => r
    | _ => cs
  match cs2 with
  | '0' :: c :: r =>
    if c = 'x' ∨ c = 'X' then (parseHexDigits r).map (fun n => sgn * n)
    else (parseDecDigits cs2).map (fun n => sgn * n)
  | _ => (parseDecDigits cs2).map (fun n => sgn * n)

/-! ## The persisted store (JSON file) -/

/-- JSON values, the image of `JSON.parse` on a successfully parsed file. -/
inductive Json where
  | str (s : String)
  | bool (b : Bool)
  | num (n : Int)
  | null
  | arr (elems : List Json)
  | obj (fields : List (String × Json))

/-- The state of the store file: missing, unreadable or unparsable (the
`catch` branch of `loadTasks`), or holding a parsed JSON value. -/
inductive FileData where
  | absent
  | unreadable
  | content (j : Json)

/-- What `loadTasks` produces: the in-memory value and whether an error
message was printed on the error channel. -/
structure LoadResult where
  value : Json
  errorReported : Bool

/-- `loadTasks` from `cli.js`: returns the parsed file content when the
file exists and parses; on a read or parse failure logs the error and
returns `[]`; when the file is absent returns `[]` with no error. -/
def loadTasks : FileData → LoadResult
  | .absent => ⟨Json.arr [], false⟩
  | .unreadable => ⟨Json.arr [], true⟩
  | .content j => ⟨j, false⟩

/-- `JSON.stringify` of one task object: keys in insertion order, with
`completedAt` present only when `complete` has set it. -/
def encodeTask (t : Task) : Json :=
  Json.obj
    ([("id", Json.str t.id), ("title", Json.str t.title),
      ("priority", Json.str t.priority), ("completed", Json.bool t.completed),
      ("created", Json.str t.created)] ++
     (match t.completedAt with
      | some c => [("completedAt", Json.str c)]
      | none => []))

/-- `JSON.stringify(tasks, null, 2)` at the level of JSON values. -/
def encodeTasks (ts : List Task) : Json :=
  Json.arr (ts.map encodeTask)

/-- `saveTasks` from `cli.js` on its success path: the file afterwards
holds the serialized task array. -/
def saveTasks (ts : List Task) : FileData :=
  FileData.content (encodeTasks ts)

/-- Reading a task record back out of a parsed JSON object, by field name
(this is how the handlers access `task.title`, `task.completed`, ...). -/
def decodeTask (j : Json) : Option Task :=
  match j with
  | Json.obj fields =>
    match fields.lookup "id", fields.lookup "title", fields.lookup "priority",
          fields.lookup "completed", fields.lookup "created" with
    | some (Json.str i), some (Json.str ti), some (Json.str p),
      some (Json.bool co), some (Json.str cr) =>
      some ⟨i, ti, p, co, cr,
        match fields.lookup "completedAt" with
        | some (Json.str ca) => some ca
        | _ => none⟩
    | _, _, _, _, _ => none
  | _ => none

/-- Reading a list of task records from a list of JSON values. -/
def decodeTaskList : List Json → Option (List Task)
  | [] => some []
  | j :: rest =>
    match decodeTask j, decodeTaskList rest with
    | some t, some ts => some (t :: ts)
    | _, _ => none

/-- Reading the whole store from a parsed JSON value. -/
def decodeTasks : Json → Option (List Task)
  | Json.arr elems => decodeTaskList elems
  | _ => none

/-! ## Command handlers -/

/-- Result of a mutating handler: the process exit code, the task
sequence that is persisted afterwards, and whether `saveTasks` ran. -/
structure CmdResult where
  exit : Nat
  store : List Task
  wrote : Bool
deriving Repr, DecidableEq

/-- The priority `commands.add` selects: `split('=')[1]` of the first
`--priority=`-prefixed argument, defaulting to `"low"`. -/
def priorityOfArgs (args : List String) : String :=
  match args.find? (fun a => strStartsWith a "--priority=") with
  | some a => (splitEq a).getD 1 ""
  | none => "low"

/-- The title `commands.add` builds: all non-`--`-prefixed arguments
joined with single spaces. -/
def titleOfArgs (args : List String) : String :=
  " ".intercalate (args.filter (fun a => !(strStartsWith a "--")))

/-- `commands.add` from `cli.js`.  `now` and `newId` stand for
`new Date().toISOString()` and `generateId()`. -/
def addCmd (now newId : String) (args : List String) (tasks : List Task) :
    CmdResult :=
  if args.length = 0 then ⟨1, tasks, false⟩
  else
    let title := titleOfArgs args
    let priority := priorityOfArgs args
    if priority ∈ (["high", "medium", "low"] : List String) then
      ⟨0, tasks ++ [⟨newId, title, priority, false, now, none⟩], true⟩
    else ⟨1, tasks, false⟩

/-- `formatTask` from `cli.js`: positional number, status glyph, priority
glyph, title. -/
def formatTask (task : Task) (index : Nat) : String :=
  toString (index + 1) ++ ". " ++
  (if task.completed then "✅" else "📋") ++ " " ++
  (if task.priority = "high" then "🔴"
   else if task.priority = "medium" then "🟡" else "🟢") ++ " " ++
  task.title

/-- The filter selector of `commands.list`: `--completed` checked before
`--pending`, otherwise `all`. -/
def listFilter (args : List String) : String :=
  if args.contains "--completed" then "completed"
  else if args.contains "--pending" then "pending"
  else "all"

/-- The filtered task sequence `commands.list` displays. -/
def filteredTasks (args : List String) (tasks : List Task) : List Task :=
  if listFilter args = "completed" then tasks.filter (fun t => t.completed)
  else if listFilter args = "pending" then tasks.filter (fun t => !t.completed)
  else tasks

/-- The per-task lines `commands.list` prints:
`filteredTasks.forEach((task, index) => console.log(formatTask(task, index)))`. -/
def taskLines (args : List String) (tasks : List Task) : List String :=
  (filteredTasks args tasks).enum.map (fun p => formatTask p.2 p.1)

/-- Result of `commands.list`: everything printed, plus the store state it
leaves behind (it never saves). -/
structure ListResult where
  lines : List String
  store : List Task
  wrote : Bool
deriving Repr, DecidableEq

/-- `commands.list` from `cli.js`. -/
def listCmd (args : List String) (tasks : List Task) : ListResult :=
  if tasks.length = 0 then
    ⟨["📋 No tasks found. Add some with \"taskly add <task>\""], tasks, false⟩
  else
    let filter := listFilter args
    let filtered := filteredTasks args tasks
    let header := ["📋 Tasks (" ++ filter ++ "):", ""]
    if filtered.length = 0 then
      ⟨header ++ ["No " ++ filter ++ " tasks found."], tasks, false⟩
    else
      ⟨header ++ taskLines args tasks ++
        ["", "Total: " ++ toString filtered.length ++ " task(s)"],
       tasks, false⟩

/-- `commands.complete` from `cli.js`.  `now` stands for
`new Date().toISOString()`.  The inner `none` branch of the lookup is
unreachable because the index was just validated against the length. -/
def completeCmd (now : String) (args : List String) (tasks : List Task) :
    CmdResult :=
  match args with
  | [] => ⟨1, tasks, false⟩
  | a :: _ =>
    match parseIntJS a with
    | none => ⟨1, tasks, false⟩
    | some n =>
      if n < 1 ∨ n > (tasks.length : Int) then ⟨1, tasks, false⟩
      else
        match tasks.get? (n.toNat - 1) with
        | none => ⟨1, tasks, false⟩
        | some task =>
          if task.completed then ⟨0, tasks, false⟩
          else
            ⟨0, tasks.set (n.toNat - 1)
                  { task with completed := true, completedAt := some now },
             true⟩

/-- `commands.remove` from `cli.js`: same validation as `complete`, then
`splice(taskNumber - 1, 1)`. -/
def removeCmd (args : List String) (tasks : List Task) : CmdResult :=
  match args with
  | [] => ⟨1, tasks, false⟩
  | a :: _ =>
    match parseIntJS a with
    | none => ⟨1, tasks, false⟩
    | some n =>
      if n < 1 ∨ n > (tasks.length : Int) then ⟨1, tasks, false⟩
      else ⟨0, tasks.eraseIdx (n.toNat - 1), true⟩

/-! ## Concrete stores used by witnesses and counterexamples -/

/-- A pending demo task. -/
def taskA : Task := ⟨"a1", "A", "low", false, "2024-01-01", none⟩

/-- A completed demo task. -/
def taskB : Task := ⟨"b2", "B", "low", true, "2024-01-01", some "2024-01-02"⟩

/-- A two-task demo store: a pending task followed by a completed one. -/
def demo2 : List Task := [taskA, taskB]

/-! ## Theorems -/

/-- Helper: decoding an encoded task gives the task back. -/
theorem decodeTask_encodeTask (t : Task) : decodeTask (encodeTask t) = some t := by
  cases t with
  | mk i ti p co cr ca => cases ca <;> rfl

/-- Claim C6: saving any sequence of task records and then loading yields
a functionally equivalent sequence: no error is reported, and reading the
loaded JSON value back field by field gives the same tasks with the same
field values in the same order. -/
theorem save_load_roundtrip (ts : List Task) :
    (loadTasks (saveTasks ts)).errorReported = false ∧
    decodeTasks (loadTasks (saveTasks ts)).value = some ts := by
  refine ⟨rfl, ?_⟩
  show decodeTaskList (ts.map encodeTask) = some ts
  induction ts with
  | nil => rfl
  | cons t rest ih => simp [decodeTaskList, decodeTask_encodeTask, ih]

/-- Claim C7: `loadTasks` returns the empty sequence, never a fatal
error, when the store file is absent (no error reported) or unreadable or
unparsable (error reported but absorbed); the empty JSON array decodes to
the empty task sequence. -/
theorem load_absorbs_failures :
    loadTasks FileData.absent = ⟨Json.arr [], false⟩ ∧
    loadTasks FileData.unreadable = ⟨Json.arr [], true⟩ ∧
    decodeTasks (Json.arr []) = some [] :=
  ⟨rfl, rfl, rfl⟩

/-- Claim C10: `list` never writes: for every store and argument list the
persisted task sequence after `list` is the sequence before it, and no
save is performed. -/
theorem list_never_writes (args : List String) (tasks : List Task) :
    (listCmd args tasks).store = tasks ∧ (listCmd args tasks).wrote = false := by
  simp only [listCmd]
  split
  · exact ⟨rfl, rfl⟩
  · split
    · exact ⟨rfl, rfl⟩
    · exact ⟨rfl, rfl⟩

/-- Claim C8: when an argument list to `list` contains both
`--completed` and `--pending`, the completed-only filter is applied. -/
theorem list_completed_precedence (args : List String) (tasks : List Task)
    (h1 : "--completed" ∈ args) (h2 : "--pending" ∈ args) :
    filteredTasks args tasks = tasks.filter (fun t => t.completed) := by
  simp [filteredTasks, listFilter, h1]

/-- Witness for the C8 theorem at `args = [--completed, --pending]`. -/
theorem list_completed_precedence_witness :
    ("--completed" : String) ∈ (["--completed", "--pending"] : List String) ∧
    ("--pending" : String) ∈ (["--completed", "--pending"] : List String) ∧
    filteredTasks ["--completed", "--pending"] demo2 =
      demo2.filter (fun t => t.completed) ∧
    demo2.filter (fun t => t.completed) = [taskB] :=
  ⟨by decide, by decide,
   list_completed_precedence ["--completed", "--pending"] demo2
     (by decide) (by decide),
   by decide⟩

/-- Claim C5: `complete` on a valid index whose task is already completed
exits 0, performs no write, and leaves every field of every task
unchanged. -/
theorem complete_already_completed_noop (now a : String) (rest : List String)
    (tasks : List Task) (n : Int) (t : Task)
    (hp : parseIntJS a = some n) (h1 : 1 ≤ n) (h2 : n ≤ (tasks.length : Int))
    (ht : tasks[n.toNat - 1]? = some t) (hc : t.completed = true) :
    completeCmd now (a :: rest) tasks = ⟨0, tasks, false⟩ := by
  have hcond : ¬(n < 1 ∨ n > (tasks.length : Int)) := by omega
  simp [completeCmd, hp, hcond, ht, hc]

/-- Witness for the C5 theorem: completing task 1 of a one-task store
whose task is already completed. -/
theorem complete_already_completed_noop_witness :
    parseIntJS "1" = some 1 ∧ Taskly.taskB.completed = true ∧
    completeCmd "2024-02-02" ["1"] [taskB] = ⟨0, [taskB], false⟩ :=
  ⟨by decide, by decide,
   complete_already_completed_noop "2024-02-02" "1" [] [taskB] 1 taskB
     (by decide) (by decide) (by decide) (by decide) (by decide)⟩

/-- Counterexample to Claim C1 as stated: in the store `demo2` the
completed task `taskB` sits at stored positional index 1, so the claim
predicts the printed number 2; but `list --completed` prints it with
number 1 (its index in the filtered sequence). -/
theorem list_number_stored_position_ce :
    (listCmd ["--completed"] demo2).lines =
      ["📋 Tasks (completed):", "", "1. ✅ 🟢 B", "", "Total: 1 task(s)"] ∧
    demo2[1]? = some taskB ∧
    formatTask taskB 1 = "2. ✅ 🟢 B" ∧
    ("1. ✅ 🟢 B" : String) ≠ "2. ✅ 🟢 B" :=
  ⟨by decide, by decide, by decide, by decide⟩

/-- Claim C1 (amended): the task number printed before each task equals
that task's positional index + 1 in the **filtered** sequence being
displayed; it coincides with the index in the stored sequence when
neither `--completed` nor `--pending` is given. -/
theorem list_number_filtered_position (args : List String) (tasks : List Task)
    (i : Nat) (t : Task) (h : (filteredTasks args tasks)[i]? = some t) :
    (taskLines args tasks)[i]? = some (formatTask t i) ∧
    ("--completed" ∉ args → "--pending" ∉ args →
      filteredTasks args tasks = tasks) := by
  constructor
  · simp [taskLines, List.getElem?_map, List.getElem?_enum, h]
  · intro h1 h2
    simp [filteredTasks, listFilter, h1, h2]

/-- Witness for the C1 theorem: the completed task of `demo2` is at index
0 of the filtered sequence and is printed with number 1. -/
theorem list_number_filtered_position_witness :
    (filteredTasks ["--completed"] demo2)[0]? = some taskB ∧
    (taskLines ["--completed"] demo2)[0]? = some (formatTask taskB 0) :=
  ⟨by decide,
   (list_number_filtered_position ["--completed"] demo2 0 taskB (by decide)).1⟩

/-- Counterexample to Claim C2 as stated: `add --priority=high` has a
non-empty argument list consisting only of `--`-prefixed flags, yet the
command succeeds (exit 0) and appends a task with an empty title. -/
theorem add_flags_only_succeeds_ce :
    addCmd "2024-01-01" "i1" ["--priority=high"] [] =
      ⟨0, [⟨"i1", "", "high", false, "2024-01-01", none⟩], true⟩ := by
  decide

/-- Claim C2 (amended): `add` fails with a usage error and exit 1 exactly
when the argument list is empty; a non-empty argument list consisting
only of `--`-prefixed flags (with a valid or absent priority flag) passes
the guard, and a task whose title is the empty string is appended. -/
theorem add_empty_guard (now newId : String) (tasks : List Task)
    (args : List String) (hne : args ≠ [])
    (hall : ∀ a ∈ args, strStartsWith a "--" = true)
    (hp : priorityOfArgs args ∈ (["high", "medium", "low"] : List String)) :
    addCmd now newId [] tasks = ⟨1, tasks, false⟩ ∧
    addCmd now newId args tasks =
      ⟨0, tasks ++ [⟨newId, "", priorityOfArgs args, false, now, none⟩],
       true⟩ := by
  refine ⟨rfl, ?_⟩
  have hlen : ¬ args.length = 0 := by
    cases args with
    | nil => exact absurd rfl hne
    | cons x xs => simp
  have hfil : args.filter (fun a => !(strStartsWith a "--")) = [] := by
    apply List.filter_eq_nil_iff.mpr
    intro a ha
    simp [hall a ha]
  have htitle : titleOfArgs args = "" := by
    unfold titleOfArgs
    rw [hfil]
    rfl
  simp [addCmd, hlen, htitle, hp]

/-- Witness for the C2 theorem at `args = [--priority=high]`. -/
theorem add_empty_guard_witness :
    priorityOfArgs ["--priority=high"] = "high" ∧
    addCmd "2024-01-01" "i1" [] [] = ⟨1, [], false⟩ ∧
    addCmd "2024-01-01" "i1" ["--priority=high"] [] =
      ⟨0, [⟨"i1", "", "high", false, "2024-01-01", none⟩], true⟩ := by
  have h := add_empty_guard "2024-01-01" "i1" [] ["--priority=high"]
    (by decide) (by decide) (by decide)
  exact ⟨by decide, h.1, h.2.trans (by decide)⟩

/-- Counterexample to Claim C3 as stated: `"2x"` is a non-numeric
argument string, yet `remove 2x` on the two-task demo store is not
rejected: `parseInt` reads the numeric prefix 2, the command exits 0 and
the store is modified (the second task is removed). -/
theorem nonnumeric_prefix_accepted_ce :
    parseIntJS "2x" = some 2 ∧
    removeCmd ["2x"] demo2 = ⟨0, [taskA], true⟩ :=
  ⟨by decide, by decide⟩

/-- Claim C3 (amended): for a store with `k` tasks, `complete` and
`remove` exit 1 and leave the store unmodified exactly when `parseInt`
of the first argument is not-a-number, less than 1, or greater than `k`;
an argument string with a leading numeric prefix, such as `"2x"`, is
treated as that prefix and is not rejected. -/
theorem index_validation_rejects (now a : String) (rest : List String)
    (tasks : List Task)
    (h : parseIntJS a = none ∨
      ∃ n, parseIntJS a = some n ∧ (n < 1 ∨ n > (tasks.length : Int))) :
    completeCmd now (a :: rest) tasks = ⟨1, tasks, false⟩ ∧
    removeCmd (a :: rest) tasks = ⟨1, tasks, false⟩ := by
  rcases h with h | ⟨n, hn, hr⟩
  · simp [completeCmd, removeCmd, h]
  · simp [completeCmd, removeCmd, hn, hr]

/-- Witness for the C3 theorem: `complete abc` and `remove abc` on the
two-task demo store are rejected without modifying it. -/
theorem index_validation_rejects_witness :
    (parseIntJS "abc" = none ∨
      ∃ n, parseIntJS "abc" = some n ∧
        (n < 1 ∨ n > ((Taskly.demo2).length : Int))) ∧
    completeCmd "2024-02-02" ["abc"] demo2 = ⟨1, demo2, false⟩ ∧
    removeCmd ["abc"] demo2 = ⟨1, demo2, false⟩ := by
  have h := index_validation_rejects "2024-02-02" "abc" [] demo2
    (Or.inl (by decide))
  exact ⟨Or.inl (by decide), h.1, h.2⟩

/-- Counterexample to Claim C4 as stated: the argument list
`[A, --priority=low, --priority=bogus]` contains a `--priority=` flag
whose value `bogus` is invalid, yet `add` exits 0 and appends the task
with priority `low`: only the first `--priority=` flag is consulted. -/
theorem add_second_priority_flag_ignored_ce :
    addCmd "2024-01-01" "i1" ["A", "--priority=low", "--priority=bogus"] [] =
      ⟨0, [⟨"i1", "A", "low", false, "2024-01-01", none⟩], true⟩ := by
  decide

/-- Claim C4 (amended): `add` exits 1 with the store unchanged when the
**first** `--priority=`-prefixed argument has an invalid value, where the
value is the text between the first and second `=` of that argument;
later `--priority=` flags are ignored. -/
theorem add_first_priority_flag (now newId : String) (args : List String)
    (tasks : List Task) (a : String)
    (hfind : args.find? (fun x => strStartsWith x "--priority=") = some a)
    (hbad : (splitEq a).getD 1 "" ∉ (["high", "medium", "low"] : List String)) :
    addCmd now newId args tasks = ⟨1, tasks, false⟩ := by
  have hlen : ¬ args.length = 0 := by
    cases args with
    | nil => simp [List.find?] at hfind
    | cons x xs => simp
  have hpa : priorityOfArgs args = (splitEq a).getD 1 "" := by
    simp [priorityOfArgs, hfind]
  have hbad2 : priorityOfArgs args ∉ (["high", "medium", "low"] : List String) := by
    rw [hpa]
    exact hbad
  simp [addCmd, hlen, hbad2]

/-- Witness for the C4 theorem: `add A --priority=bogus` is rejected with
the store unchanged. -/
theorem add_first_priority_flag_witness :
    (["A", "--priority=bogus"] : List String).find?
      (fun x => strStartsWith x "--priority=") = some "--priority=bogus" ∧
    (splitEq "--priority=bogus").getD 1 "" = "bogus" ∧
    addCmd "2024-01-01" "i1" ["A", "--priority=bogus"] [] = ⟨1, [], false⟩ :=
  ⟨by decide, by decide,
   add_first_priority_flag "2024-01-01" "i1" ["A", "--priority=bogus"] []
     "--priority=bogus" (by decide) (by decide)⟩

/-- Claim C9: every `--`-prefixed argument is excluded from the title
(the title is the space-join of the non-flag arguments only), and when no
`--priority=` flag is present any other flag is silently ignored: `add`
succeeds, writes, and the priority defaults to `low`. -/
theorem add_ignores_unknown_flags (now newId : String) (tasks : List Task)
    (args : List String) (hne : args ≠ [])
    (hnp : args.find? (fun a => strStartsWith a "--priority=") = none) :
    addCmd now newId args tasks =
      ⟨0, tasks ++ [⟨newId, titleOfArgs args, "low", false, now, none⟩],
       true⟩ ∧
    titleOfArgs args =
      " ".intercalate (args.filter (fun a => !(strStartsWith a "--"))) := by
  have hlen : ¬ args.length = 0 := by
    cases args with
    | nil => exact absurd rfl hne
    | cons x xs => simp
  have hpa : priorityOfArgs args = "low" := by
    simp [priorityOfArgs, hnp]
  exact ⟨by simp [addCmd, hlen, hpa], rfl⟩

/-- Witness for the C9 theorem: `add hello --verbose` succeeds with title
`hello` and default priority `low`. -/
theorem add_ignores_unknown_flags_witness :
    titleOfArgs ["hello", "--verbose"] = "hello" ∧
    addCmd "2024-01-01" "i1" ["hello", "--verbose"] [] =
      ⟨0, [⟨"i1", "hello", "low", false, "2024-01-01", none⟩], true⟩ := by
  have h := add_ignores_unknown_flags "2024-01-01" "i1" []
    ["hello", "--verbose"] (by decide) (by decide)
  exact ⟨by decide, h.1.trans (by decide)⟩

end Taskly
